import Mathlib

/-!
Verification of the core of `cedit` (src/cedit.c): a kilo-style terminal
editor.  We give a shallow embedding of the key decoder (`editorReadKey`),
the cursor-movement and keypress dispatch (`editorMoveCursor`,
`editorProcessKeypress`), the renderer (`editorDrawRows`,
`editorRefreshScreen`), the append buffer (`abAppend`) and the
window-size probing (`getCursorPosition`, `getWindowSize`, `initEditor`).

Modelling conventions:
* Bytes are `Nat` in `[0, 255]`; the symbolic key codes of `enum editorKey`
  keep their C values `1000..1008` (they never collide with byte values,
  matching the unsigned-char reading of the C `char`/`int` conversions —
  every comparison the program performs is unaffected by `char` signedness).
* The input stream is a finite `List Nat` of the bytes available on stdin.
  A `read` succeeds while the list is nonempty; once it is exhausted every
  further `read` times out (returns 0 bytes, `VMIN = 0`, `VTIME = 1`).
  The top-level read of `editorReadKey` loops until a byte arrives, so on
  an exhausted stream it has no defined result; inside an escape sequence
  a timed-out read makes the function return the literal escape byte.
* C control paths that fall off the end of the non-void `editorReadKey`
  without executing a `return` have no defined return value (undefined
  behaviour); the model yields `none` there.
* `screen_rows`, `screen_cols`, `num_rows` are modelled as `Nat`
  (ViewportSize fields are positive, `num_rows` is 0 or 1); the cursor
  coordinates `cx`, `cy` are `Int` exactly as in the C `int` fields.
* `erow` stores `size` and `chars`; `editorOpen` always establishes
  `size = length of chars`, so a row is modelled as its byte list `row`,
  with `E.row.length` playing the role of `E.row.size`.
-/

/-- `enum editorKey`: ARROW_LEFT = 1000. -/
def ARROW_LEFT : Nat := 1000

/-- `enum editorKey`: ARROW_RIGHT = 1001. -/
def ARROW_RIGHT : Nat := 1001

/-- `enum editorKey`: ARROW_UP = 1002. -/
def ARROW_UP : Nat := 1002

/-- `enum editorKey`: ARROW_DOWN = 1003. -/
def ARROW_DOWN : Nat := 1003

/-- `enum editorKey`: PAGE_UP = 1004. -/
def PAGE_UP : Nat := 1004

/-- `enum editorKey`: PAGE_DOWN = 1005. -/
def PAGE_DOWN : Nat := 1005

/-- `enum editorKey`: HOME_KEY = 1006. -/
def HOME_KEY : Nat := 1006

/-- `enum editorKey`: END_KEY = 1007. -/
def END_KEY : Nat := 1007

/-- `enum editorKey`: DEL_KEY = 1008. -/
def DEL_KEY : Nat := 1008

/-- `CTRL_KEY('q')` = `'q' & 0x1f` = 17. -/
def CTRL_Q : Nat := 17

/-- `struct editorConfig E` (the fields the core reads and writes). -/
structure EditorConfig where
  cx : Int
  cy : Int
  screen_rows : Nat
  screen_cols : Nat
  num_rows : Nat
  row : List Nat
deriving Repr, DecidableEq

/--
`editorReadKey` from src/cedit.c, on an input stream of available bytes.
Returns `some (key, rest)` when a `return` statement executes with value
`key`, leaving `rest` of the stream unconsumed; `none` when the function
never returns a defined value (blocked forever on an empty stream, or
control fell off the end of the non-void function — undefined behaviour).
-/
def editorReadKey : List Nat → Option (Nat × List Nat)
  | [] => none
  | c :: rest =>
    if c = 27 then
      match rest with
      | [] => some (27, [])
      | s0 :: rest1 =>
        match rest1 with
        | [] => some (27, [])
        | s1 :: rest2 =>
          if s0 = 91 then
            if 48 ≤ s1 ∧ s1 ≤ 57 then
              match rest2 with
              | [] => some (27, [])
              | s2 :: rest3 =>
                if s2 = 126 then
                  if s1 = 49 then some (HOME_KEY, rest3)
                  else if s1 = 51 then some (DEL_KEY, rest3)
                  else if s1 = 52 then some (END_KEY, rest3)
                  else if s1 = 53 then some (PAGE_UP, rest3)
                  else if s1 = 54 then some (PAGE_DOWN, rest3)
                  else if s1 = 55 then some (HOME_KEY, rest3)
                  else if s1 = 56 then some (END_KEY, rest3)
                  else none
                else none
            else
              if s1 = 65 then some (ARROW_UP, rest2)
              else if s1 = 66 then some (ARROW_DOWN, rest2)
              else if s1 = 67 then some (ARROW_RIGHT, rest2)
              else if s1 = 68 then some (ARROW_LEFT, rest2)
              else if s1 = 72 then some (HOME_KEY, rest2)
              else if s1 = 70 then some (END_KEY, rest2)
              else none
          else if s0 = 79 then
            if s1 = 72 then some (HOME_KEY, rest2)
            else if s1 = 70 then some (END_KEY, rest2)
            else some (27, rest2)
          else none
    else
      some (c, rest)

/--
`editorMoveCursor` from src/cedit.c: move one cell in the direction of
`key`, clamped at the viewport edges; any other `key` leaves the state
unchanged (the `switch` has no default).
-/
def editorMoveCursor (E : EditorConfig) (key : Nat) : EditorConfig :=
  if key = ARROW_LEFT then
    if E.cx ≠ 0 then { E with cx := E.cx - 1 } else E
  else if key = ARROW_RIGHT then
    if E.cx ≠ (E.screen_cols : Int) - 1 then { E with cx := E.cx + 1 } else E
  else if key = ARROW_UP then
    if E.cy ≠ 0 then { E with cy := E.cy - 1 } else E
  else if key = ARROW_DOWN then
    if E.cy ≠ (E.screen_rows : Int) - 1 then { E with cy := E.cy + 1 } else E
  else E

/-- `"\x1b[2J"`: erase the whole screen. -/
def eraseScreenSeq : List Nat := [27, 91, 50, 74]

/-- `"\x1b[H"`: home the cursor. -/
def cursorHomeSeq : List Nat := [27, 91, 72]

/--
Outcome of one `editorProcessKeypress` dispatch: either the loop goes on
with an updated state, or the process performed the listed `write` calls
(in order) and called `exit` with the given status.
-/
inductive StepResult where
  | running (E : EditorConfig)
  | exited (code : Nat) (writes : List (List Nat))
deriving Repr, DecidableEq

/--
The `switch (c)` body of `editorProcessKeypress` from src/cedit.c, applied
to an already-decoded key `c`.  `CTRL_KEY('q')` writes `\x1b[2J` then
`\x1b[H` and calls `exit(0)`; PAGE_UP/PAGE_DOWN repeat the one-step
clamped move `E.screen_rows` times; HOME/END set the column; arrows move
one step; every other key falls through the `switch` with no effect.
-/
def editorProcessKey (E : EditorConfig) (c : Nat) : StepResult :=
  if c = CTRL_Q then
    .exited 0 [eraseScreenSeq, cursorHomeSeq]
  else if c = PAGE_UP ∨ c = PAGE_DOWN then
    .running ((fun S => editorMoveCursor S
      (if c = PAGE_UP then ARROW_UP else ARROW_DOWN))^[E.screen_rows] E)
  else if c = HOME_KEY then
    .running { E with cx := 0 }
  else if c = END_KEY then
    .running { E with cx := (E.screen_cols : Int) - 1 }
  else if c = ARROW_UP ∨ c = ARROW_DOWN ∨ c = ARROW_LEFT ∨ c = ARROW_RIGHT then
    .running (editorMoveCursor E c)
  else
    .running E

/--
`editorProcessKeypress` from src/cedit.c: decode one key from the input
stream, then dispatch on it.  `none` when `editorReadKey` has no defined
result; otherwise the dispatch outcome together with the bytes left
unread on the stream.
-/
def editorProcessKeypress (E : EditorConfig) (input : List Nat) :
    Option (StepResult × List Nat) :=
  match editorReadKey input with
  | none => none
  | some (c, rest) => some (editorProcessKey E c, rest)

/--
Iterated dispatch on a list of already-decoded key events, as performed by
successive iterations of the `while (1)` loop in `main`; stops (keeping
the state at exit time) when a key terminates the process.
-/
def runKeys (E : EditorConfig) : List Nat → EditorConfig
  | [] => E
  | c :: cs =>
    match editorProcessKey E c with
    | .running E2 => runKeys E2 cs
    | .exited _ _ => E

/-- The cursor stays inside the viewport: `cx ∈ [0, screen_cols - 1]` and
`cy ∈ [0, screen_rows - 1]`. -/
def InBounds (E : EditorConfig) : Prop :=
  0 ≤ E.cx ∧ E.cx ≤ (E.screen_cols : Int) - 1 ∧
  0 ≤ E.cy ∧ E.cy ≤ (E.screen_rows : Int) - 1

instance (E : EditorConfig) : Decidable (InBounds E) := by
  unfold InBounds; infer_instance

/-- The welcome banner `snprintf` produces: `"Cedit editor -- version "`
followed by `CEDIT_VERSION = "0.0.0"` (29 bytes, well under the 80-byte
buffer, so `snprintf` writes it whole and returns its length). -/
def welcomeBytes : List Nat :=
  (String.data "Cedit editor -- version 0.0.0").map Char.toNat

/--
The content bytes the `y`-th iteration of `editorDrawRows` appends for its
row, before the `\x1b[K` erase and the optional `\r\n` separator
(consecutive `abAppend` content calls concatenated): past the document
(`y >= E.num_rows`) the banner row `y = E.screen_rows / 3` gets the
centered welcome message prefixed by a tilde when the padding is nonzero,
other empty rows get a single tilde, and a document row gets its bytes
truncated to at most `E.screen_cols`.
-/
def rowContent (E : EditorConfig) (y : Nat) : List Nat :=
  if E.num_rows ≤ y then
    if y = E.screen_rows / 3 then
      let wlen := if welcomeBytes.length > E.screen_cols then E.screen_cols
                  else welcomeBytes.length
      let padding := (E.screen_cols - wlen) / 2
      (if padding ≠ 0 then 126 :: List.replicate (padding - 1) 32 else []) ++
        welcomeBytes.take wlen
    else [126]
  else
    let len := if E.row.length > E.screen_cols then E.screen_cols
               else E.row.length
    E.row.take len

/-- One `abAppend` emission of `editorDrawRows`, keeping the structural
role of the appended bytes: row content, the `\x1b[K` erase-to-end-of-line
control, or the `\r\n` row separator. -/
inductive Chunk where
  | content (bs : List Nat)
  | eol
  | sep
deriving Repr, DecidableEq

/-- The bytes a `Chunk` stands for. -/
def chunkBytes : Chunk → List Nat
  | .content bs => bs
  | .eol => [27, 91, 75]
  | .sep => [13, 10]

/-- Is this chunk the `\r\n` row separator? -/
def isSep : Chunk → Bool
  | .sep => true
  | _ => false

/-- Is this chunk the `\x1b[K` erase-to-end-of-line control? -/
def isEol : Chunk → Bool
  | .eol => true
  | _ => false

/-- The chunks the `y`-th loop iteration of `editorDrawRows` appends:
the row's content, then `\x1b[K`, then `\r\n` unless `y` is the last
viewport row (`if (y < E.screen_rows - 1)`). -/
def drawRowChunks (E : EditorConfig) (y : Nat) : List Chunk :=
  [Chunk.content (rowContent E y), Chunk.eol] ++
    (if y < E.screen_rows - 1 then [Chunk.sep] else [])

/-- The chunks appended by the loop iterations `y = 0, ..., n - 1`. -/
def drawRowsUpTo (E : EditorConfig) : Nat → List Chunk
  | 0 => []
  | n + 1 => drawRowsUpTo E n ++ drawRowChunks E n

/-- `editorDrawRows` from src/cedit.c, as the ordered list of its
`abAppend` emissions over the whole viewport (`y` from 0 to
`E.screen_rows - 1`). -/
def editorDrawRows (E : EditorConfig) : List Chunk :=
  drawRowsUpTo E E.screen_rows

/-- `abAppend` from src/cedit.c: extend the accumulated buffer with the
given bytes (the reallocate-and-`memcpy` grow, on the success path). -/
def abAppend (ab : List Nat) (s : List Nat) : List Nat := ab ++ s

/-- Decimal rendering of an `int`, as `snprintf`'s `%d` produces it. -/
def intDecimalBytes (n : Int) : List Nat :=
  (String.data (toString n)).map Char.toNat

/-- The `\x1b[%d;%dH` cursor-positioning sequence `editorRefreshScreen`
formats with `E.cy + 1` and `E.cx + 1` (1-indexed on the wire). -/
def cursorPositionSeq (E : EditorConfig) : List Nat :=
  [27, 91] ++ intDecimalBytes (E.cy + 1) ++ [59] ++
    intDecimalBytes (E.cx + 1) ++ [72]

/-- The whole frame `editorRefreshScreen` accumulates through `abAppend`
calls starting from `ABUF_INIT`: hide cursor, home cursor, the
`editorDrawRows` emissions, the cursor-positioning sequence, show
cursor. -/
def frameBuffer (E : EditorConfig) : List Nat :=
  let ab0 : List Nat := []
  let ab1 := abAppend ab0 [27, 91, 63, 50, 53, 108]
  let ab2 := abAppend ab1 [27, 91, 72]
  let ab3 := (editorDrawRows E).foldl (fun ab ch => abAppend ab (chunkBytes ch)) ab2
  let ab4 := abAppend ab3 (cursorPositionSeq E)
  abAppend ab4 [27, 91, 63, 50, 53, 104]

/-- `editorRefreshScreen` from src/cedit.c, as the list of `write` calls
it performs: it builds the frame in one append buffer and writes it with
a single `write(STDOUT_FILENO, ab.b, ab.len)`, then frees the buffer. -/
def editorRefreshScreen (E : EditorConfig) : List (List Nat) :=
  [frameBuffer E]

/-- Longest leading run of ASCII digits, as `sscanf`'s `%d` consumes it
on a digit-led nonnegative number: `some (value, rest)`, or `none` when
the first byte is not a digit (conversion failure). -/
def scanNat (bs : List Nat) : Option (Nat × List Nat) :=
  let ds := bs.takeWhile (fun b => decide (48 ≤ b ∧ b ≤ 57))
  if ds.isEmpty then none
  else some (ds.foldl (fun acc d => acc * 10 + (d - 48)) 0, bs.drop ds.length)

/-- `sscanf(buf, "%d;%d", rows, cols)` on a digit-led reply: both numbers
parsed around a `';'` (58+1 = 59), or `none` when fewer than two
conversions succeed. -/
def scanRowsCols (bs : List Nat) : Option (Nat × Nat) :=
  match scanNat bs with
  | none => none
  | some (r, rest) =>
    match rest with
    | 59 :: rest2 =>
      match scanNat rest2 with
      | none => none
      | some (c, _) => some (r, c)
    | _ => none

/--
`getCursorPosition` from src/cedit.c: after writing the `\x1b[6n` query it
reads the reply into `buf` until a `'R'` byte, a timed-out read, or 31
bytes; the `'R'` is overwritten by the terminating `'\0'`.  It checks
`buf[0] == '\x1b' && buf[1] == '['`, then runs
`sscanf(&buf[2], "%d;%d", rows, cols)`.  The result is the pair of the C
return value and the values stored through the `rows`/`cols` out
parameters: note the function returns `-1` on **every** path, including
the one where the parse succeeded and the out parameters were written.
-/
def getCursorPosition (input : List Nat) : Int × Option (Nat × Nat) :=
  let buf := (input.takeWhile (fun b => b != 82)).take 31
  if buf.getD 0 0 = 27 ∧ buf.getD 1 0 = 91 then
    match scanRowsCols (buf.drop 2) with
    | some rc => (-1, some rc)
    | none => (-1, none)
  else (-1, none)

/--
`getWindowSize` from src/cedit.c.  `ioctlRes` is the outcome of
`ioctl(STDOUT_FILENO, TIOCGWINSZ, &ws)`: `none` for failure, otherwise
the reported `(ws_row, ws_col)`.  On success with a nonzero column count
it returns those values.  Otherwise the fallback writes the
`\x1b[999C\x1b[999B` probe, calls `editorReadKey()` (consuming and
discarding one key from `input`), and returns `-1` — it never calls
`getCursorPosition`, so the fallback can never produce a size.
-/
def getWindowSize (ioctlRes : Option (Nat × Nat)) (input : List Nat) :
    Option (Nat × Nat) :=
  match ioctlRes with
  | some (r, c) =>
    if c = 0 then
      let _ := editorReadKey input
      none
    else some (r, c)
  | none =>
    let _ := editorReadKey input
    none

/-- `initEditor` from src/cedit.c: zero the cursor and row count, then
take the viewport size from `getWindowSize`; `none` models the
`die("getWindowSize")` abort when it returns `-1`. -/
def initEditor (ioctlRes : Option (Nat × Nat)) (input : List Nat) :
    Option EditorConfig :=
  match getWindowSize ioctlRes input with
  | none => none
  | some (r, c) => some ⟨0, 0, r, c, 0, []⟩

/-- A freshly initialized 24×80 editor with an empty document. -/
def E_empty : EditorConfig := ⟨0, 0, 24, 80, 0, []⟩

/-- A 24×80 editor holding the five-byte line `"hello"`. -/
def E_line : EditorConfig := ⟨0, 0, 24, 80, 1, [104, 101, 108, 108, 111]⟩

/-- A 24×80 editor with the cursor parked mid-screen. -/
def E_mid : EditorConfig := ⟨5, 7, 24, 80, 0, []⟩

/-- The cursor-position-report reply `"\x1b[24;80R"`. -/
def cprReply : List Nat := [27, 91, 50, 52, 59, 56, 48, 82]

example : editorReadKey [113] = some (113, []) := by decide
example : editorReadKey [27, 91, 65] = some (ARROW_UP, []) := by decide
example : editorReadKey [27, 91, 49, 126] = some (HOME_KEY, []) := by decide
example : editorReadKey [27, 91, 90] = none := by decide
example : editorReadKey [27, 79, 88] = some (27, []) := by decide
example : editorReadKey [27] = some (27, []) := by decide
example : welcomeBytes.length = 29 := by decide
example : rowContent E_empty 0 = [126] := by decide
example : getCursorPosition cprReply = (-1, some (24, 80)) := by decide

/-- `editorMoveCursor` never touches the viewport dimensions, the row
count, or the row contents. -/
theorem editorMoveCursor_dims (E : EditorConfig) (k : Nat) :
    (editorMoveCursor E k).screen_rows = E.screen_rows ∧
    (editorMoveCursor E k).screen_cols = E.screen_cols ∧
    (editorMoveCursor E k).num_rows = E.num_rows ∧
    (editorMoveCursor E k).row = E.row := by
  unfold editorMoveCursor
  split_ifs <;> simp

/-- One clamped cursor step keeps the cursor inside the viewport. -/
theorem editorMoveCursor_inbounds (E : EditorConfig) (k : Nat)
    (h : InBounds E) : InBounds (editorMoveCursor E k) := by
  obtain ⟨h1, h2, h3, h4⟩ := h
  unfold InBounds editorMoveCursor
  split_ifs <;> simp_all <;> omega

/-- Iterating clamped cursor steps keeps the cursor inside the viewport. -/
theorem iterate_move_inbounds (k n : Nat) (E : EditorConfig)
    (h : InBounds E) :
    InBounds ((fun S => editorMoveCursor S k)^[n] E) := by
  induction n generalizing E with
  | zero => simpa using h
  | succ n ih =>
    rw [Function.iterate_succ_apply]
    exact ih _ (editorMoveCursor_inbounds E k h)

/-- When a keypress dispatch keeps the loop running, the cursor is still
inside the viewport. -/
theorem editorProcessKey_inbounds (E E2 : EditorConfig) (c : Nat)
    (h : InBounds E) (hstep : editorProcessKey E c = .running E2) :
    InBounds E2 := by
  obtain ⟨h1, h2, h3, h4⟩ := h
  unfold editorProcessKey at hstep
  split_ifs at hstep with hq hpg hup hhome hend harrow
  · simp only [StepResult.running.injEq] at hstep
    subst hstep
    exact iterate_move_inbounds _ _ E ⟨h1, h2, h3, h4⟩
  · simp only [StepResult.running.injEq] at hstep
    subst hstep
    exact iterate_move_inbounds _ _ E ⟨h1, h2, h3, h4⟩
  · simp only [StepResult.running.injEq] at hstep
    subst hstep
    unfold InBounds
    dsimp only
    omega
  · simp only [StepResult.running.injEq] at hstep
    subst hstep
    unfold InBounds
    dsimp only
    omega
  · simp only [StepResult.running.injEq] at hstep
    subst hstep
    exact editorMoveCursor_inbounds E c ⟨h1, h2, h3, h4⟩
  · simp only [StepResult.running.injEq] at hstep
    subst hstep
    exact ⟨h1, h2, h3, h4⟩

/-- Processing any sequence of decoded key events keeps the cursor inside
the viewport. -/
theorem runKeys_inbounds (cs : List Nat) (E : EditorConfig)
    (h : InBounds E) : InBounds (runKeys E cs) := by
  induction cs generalizing E with
  | nil => simpa [runKeys] using h
  | cons c cs ih =>
    rw [runKeys]
    cases hstep : editorProcessKey E c with
    | running E2 => exact ih E2 (editorProcessKey_inbounds E E2 c h hstep)
    | exited code ws => exact h

/--
C1: from any cursor position with `cx ∈ [0, cols-1]` and `cy ∈ [0, rows-1]`,
processing any sequence of decoded key events (arrows, PAGE_UP, PAGE_DOWN,
HOME, END, or any other key) keeps the cursor inside those bounds, and an
arrow-key move at a viewport edge leaves the state entirely unchanged
(no wrapping).
-/
theorem cursor_bounds_preserved (E : EditorConfig) (cs : List Nat)
    (h : InBounds E) :
    InBounds (runKeys E cs) ∧
    (E.cx = 0 → editorMoveCursor E ARROW_LEFT = E) ∧
    (E.cx = (E.screen_cols : Int) - 1 → editorMoveCursor E ARROW_RIGHT = E) ∧
    (E.cy = 0 → editorMoveCursor E ARROW_UP = E) ∧
    (E.cy = (E.screen_rows : Int) - 1 → editorMoveCursor E ARROW_DOWN = E) := by
  refine ⟨runKeys_inbounds cs E h, ?_, ?_, ?_, ?_⟩ <;> intro hedge <;>
    simp [editorMoveCursor, hedge, ARROW_LEFT, ARROW_RIGHT, ARROW_UP,
      ARROW_DOWN]

/-- Witness for C1 at a concrete state and key sequence. -/
theorem cursor_bounds_preserved_witness :
    InBounds (runKeys E_empty [ARROW_LEFT, ARROW_UP, PAGE_DOWN, END_KEY, 120]) :=
  (cursor_bounds_preserved E_empty [ARROW_LEFT, ARROW_UP, PAGE_DOWN, END_KEY, 120]
    (by decide)).1

/--
C5: a read whose first byte `b` is not the escape byte 0x1B makes
`editorReadKey` return exactly `b`, consuming only that byte.
-/
theorem non_escape_identity (b : Nat) (rest : List Nat) (h : b ≠ 27) :
    editorReadKey (b :: rest) = some (b, rest) := by
  unfold editorReadKey
  simp [h]

/-- Witness for C5 at byte 113 (`'q'`). -/
theorem non_escape_identity_witness :
    editorReadKey (113 :: [10]) = some (113, [10]) :=
  non_escape_identity 113 [10] (by decide)

/--
C8: in any state and for any remaining input, dispatching on the quit
byte `CTRL_KEY('q')` = 0x11 performs exactly the screen-erase write and
the cursor-home write, in that order, then terminates the process with
exit status 0; the rest of the input stream is left unread.
-/
theorem quit_key_writes_and_exits (E : EditorConfig) (rest : List Nat) :
    editorProcessKeypress E (CTRL_Q :: rest) =
      some (.exited 0 [eraseScreenSeq, cursorHomeSeq], rest) := by
  simp [editorProcessKeypress, editorReadKey, editorProcessKey, CTRL_Q]

/--
C2 (evaluation at the failing inputs): for the unrecognized
escape-initiated inputs `ESC [ Z`, `ESC X X` and `ESC [ 2 A`, control in
`editorReadKey` falls off the end of the non-void function without
executing any `return`, so the decoder has **no** defined result (`none`),
instead of the literal escape 0x1B the specification promises; only the
`ESC O <other>` shape actually returns the literal escape.
-/
theorem unrecognized_escape_undefined :
    editorReadKey [27, 91, 90] = none ∧
    editorReadKey [27, 88, 88] = none ∧
    editorReadKey [27, 91, 50, 65] = none ∧
    editorReadKey [27, 79, 88] = some (27, []) := by decide

/--
C4 (evaluation): `ESC [ d ~` maps d = 1,7 to HOME, 3 to DELETE, 4,8 to
END, 5 to PAGE_UP, 6 to PAGE_DOWN, exactly as claimed; but for the
remaining digits d = 0, 2, 9 control falls off the end of the non-void
function, so the decoder's result is undefined (`none`) rather than the
claimed safe no-op.
-/
theorem digit_tilde_mapping :
    editorReadKey [27, 91, 49, 126] = some (HOME_KEY, []) ∧
    editorReadKey [27, 91, 51, 126] = some (DEL_KEY, []) ∧
    editorReadKey [27, 91, 52, 126] = some (END_KEY, []) ∧
    editorReadKey [27, 91, 53, 126] = some (PAGE_UP, []) ∧
    editorReadKey [27, 91, 54, 126] = some (PAGE_DOWN, []) ∧
    editorReadKey [27, 91, 55, 126] = some (HOME_KEY, []) ∧
    editorReadKey [27, 91, 56, 126] = some (END_KEY, []) ∧
    editorReadKey [27, 91, 48, 126] = none ∧
    editorReadKey [27, 91, 50, 126] = none ∧
    editorReadKey [27, 91, 57, 126] = none := by decide

/--
C3 (evaluation): when the `ioctl` window-size query fails (or reports zero
columns), `getWindowSize` writes the probe, consumes one key, and returns
`-1` without ever calling `getCursorPosition`, even though the
cursor-position reply `"\x1b[24;80R"` is sitting on the input and
`getCursorPosition` would parse it into (24, 80); `getCursorPosition`
itself returns `-1` on its successful-parse path too, so startup
(`initEditor`) aborts whenever the primary query fails, parsable reply or
not.
-/
theorem window_size_fallback_returns_failure :
    getWindowSize none cprReply = none ∧
    getWindowSize (some (24, 0)) cprReply = none ∧
    getCursorPosition cprReply = (-1, some (24, 80)) ∧
    initEditor none cprReply = none := by decide

/-- Iterating the clamped one-step upward move at least `cy` times drives
the cursor row to 0 and changes nothing else. -/
theorem iterate_up_saturates (n : Nat) (E : EditorConfig) (h0 : 0 ≤ E.cy)
    (hn : E.cy ≤ (n : Int)) :
    (fun S => editorMoveCursor S ARROW_UP)^[n] E = { E with cy := 0 } := by
  induction n generalizing E with
  | zero =>
    have hcy : E.cy = 0 := le_antisymm (by exact_mod_cast hn) h0
    cases E
    simp_all
  | succ n ih =>
    rw [Function.iterate_succ_apply]
    by_cases hcy : E.cy = 0
    · have h1 : editorMoveCursor E ARROW_UP = E := by
        simp [editorMoveCursor, ARROW_UP, ARROW_LEFT, ARROW_RIGHT, hcy]
      rw [h1, ih E h0 (by omega)]
    · have h1 : editorMoveCursor E ARROW_UP = { E with cy := E.cy - 1 } := by
        simp [editorMoveCursor, ARROW_UP, ARROW_LEFT, ARROW_RIGHT, hcy]
      rw [h1, ih _ (by dsimp only; omega) (by dsimp only; omega)]

/-- Iterating the clamped one-step downward move at least
`rows - 1 - cy` times drives the cursor row to `rows - 1` and changes
nothing else. -/
theorem iterate_down_saturates (n : Nat) (E : EditorConfig)
    (h0 : E.cy ≤ (E.screen_rows : Int) - 1)
    (hn : (E.screen_rows : Int) - 1 ≤ E.cy + (n : Int)) :
    (fun S => editorMoveCursor S ARROW_DOWN)^[n] E =
      { E with cy := (E.screen_rows : Int) - 1 } := by
  induction n generalizing E with
  | zero =>
    have hcy : E.cy = (E.screen_rows : Int) - 1 := by push_cast at hn; omega
    cases E
    simp_all
  | succ n ih =>
    rw [Function.iterate_succ_apply]
    by_cases hcy : E.cy = (E.screen_rows : Int) - 1
    · have h1 : editorMoveCursor E ARROW_DOWN = E := by
        simp [editorMoveCursor, ARROW_DOWN, ARROW_LEFT, ARROW_RIGHT,
          ARROW_UP, hcy]
      rw [h1, ih E h0 (by push_cast at hn; omega)]
    · have h1 : editorMoveCursor E ARROW_DOWN = { E with cy := E.cy + 1 } := by
        simp [editorMoveCursor, ARROW_DOWN, ARROW_LEFT, ARROW_RIGHT,
          ARROW_UP, hcy]
      rw [h1, ih _ (by dsimp only; omega) (by dsimp only; push_cast at hn; omega)]

/--
C10: from any in-bounds cursor position, one PAGE_UP keypress leaves the
cursor at row 0 and one PAGE_DOWN keypress leaves it at row
`screen_rows - 1` (the `screen_rows`-fold clamped step saturates at the
viewport edge); the column and every other field are unchanged.
-/
theorem page_keys_saturate (E : EditorConfig) (h : InBounds E) :
    editorProcessKey E PAGE_UP = .running { E with cy := 0 } ∧
    editorProcessKey E PAGE_DOWN =
      .running { E with cy := (E.screen_rows : Int) - 1 } := by
  obtain ⟨h1, h2, h3, h4⟩ := h
  constructor
  · have hred : editorProcessKey E PAGE_UP =
        .running ((fun S => editorMoveCursor S ARROW_UP)^[E.screen_rows] E) := by
      simp [editorProcessKey, PAGE_UP, PAGE_DOWN, CTRL_Q]
    rw [hred, iterate_up_saturates E.screen_rows E h3 (by omega)]
  · have hred : editorProcessKey E PAGE_DOWN =
        .running ((fun S => editorMoveCursor S ARROW_DOWN)^[E.screen_rows] E) := by
      simp [editorProcessKey, PAGE_UP, PAGE_DOWN, CTRL_Q]
    rw [hred, iterate_down_saturates E.screen_rows E h4 (by omega)]

/-- Witness for C10 at a concrete mid-screen state. -/
theorem page_keys_saturate_witness :
    editorProcessKey E_mid PAGE_UP = .running { E_mid with cy := 0 } :=
  (page_keys_saturate E_mid (by decide)).1




/--
C6: with an empty document on a 24×80 viewport, the banner row
`24 / 3 = 8` is the tilde filler at column 0, then
`(80 - L) / 2 - 1` spaces (L = 29, the banner length), then the banner
bytes; every other empty row is just the tilde filler.
-/
theorem welcome_banner_row :
    rowContent E_empty 8 =
      126 :: (List.replicate ((80 - welcomeBytes.length) / 2 - 1) 32 ++
        welcomeBytes) ∧
    ∀ y, y < 24 → y ≠ 8 → rowContent E_empty y = [126] := by
  constructor
  · decide
  · decide

/-- Witness for C6's quantified part at row 3. -/
theorem welcome_banner_row_witness : rowContent E_empty 3 = [126] :=
  welcome_banner_row.2 3 (by decide) (by decide)

/-- Counting `\r\n` separator emissions over the first `n` loop
iterations: one for every row except those at or past
`screen_rows - 1`. -/
theorem countP_isSep_drawRowsUpTo (E : EditorConfig) (n : Nat) :
    (drawRowsUpTo E n).countP isSep = min n (E.screen_rows - 1) := by
  induction n with
  | zero => simp [drawRowsUpTo]
  | succ n ih =>
    rw [drawRowsUpTo, List.countP_append, ih]
    by_cases hlt : n < E.screen_rows - 1
    · simp [drawRowChunks, hlt, isSep, List.countP_cons]
      omega
    · simp [drawRowChunks, hlt, isSep, List.countP_cons]
      omega

/-- Counting `\x1b[K` emissions over the first `n` loop iterations: one
per row. -/
theorem countP_isEol_drawRowsUpTo (E : EditorConfig) (n : Nat) :
    (drawRowsUpTo E n).countP isEol = n := by
  induction n with
  | zero => simp [drawRowsUpTo]
  | succ n ih =>
    rw [drawRowsUpTo, List.countP_append, ih]
    by_cases hlt : n < E.screen_rows - 1
    · simp [drawRowChunks, hlt, isEol, List.countP_cons]
    · simp [drawRowChunks, hlt, isEol, List.countP_cons]

/--
C7: one frame of `editorDrawRows` over a viewport of `screen_rows` rows
emits exactly `screen_rows - 1` row separators (one after every row but
the last) and one erase-to-end-of-line control per row, for every
document state; and a row that indexes into the document line emits that
line truncated to at most `screen_cols` bytes (never wrapped).
-/
theorem row_separators_count (E : EditorConfig) :
    (editorDrawRows E).countP isSep = E.screen_rows - 1 ∧
    (editorDrawRows E).countP isEol = E.screen_rows ∧
    ∀ y, y < E.screen_rows → y < E.num_rows →
      rowContent E y = E.row.take E.screen_cols := by
  refine ⟨?_, countP_isEol_drawRowsUpTo E _, ?_⟩
  · rw [editorDrawRows, countP_isSep_drawRowsUpTo]
    omega
  · intro y hyR hyN
    unfold rowContent
    rw [if_neg (by omega)]
    by_cases hlen : E.row.length > E.screen_cols
    · simp [hlen]
    · rw [if_neg hlen, List.take_length, List.take_of_length_le (by omega)]

/-- Witness for C7's quantified part: the 24×80 viewport with the
five-byte line, at row 0. -/
theorem row_separators_count_witness :
    rowContent E_line 0 = E_line.row.take 80 :=
  (row_separators_count E_line).2.2 0 (by decide) (by decide)

/--
C9: `abAppend` leaves every previously appended byte in place (the old
buffer is literally the prefix of the new one) and grows the length by
the appended length; and `editorRefreshScreen` performs exactly one
`write`, of the entire accumulated frame, per call.
-/
theorem append_buffer_contract :
    (∀ ab s : List Nat, (abAppend ab s).take ab.length = ab ∧
      (abAppend ab s).length = ab.length + s.length) ∧
    (∀ E : EditorConfig, editorRefreshScreen E = [frameBuffer E] ∧
      (editorRefreshScreen E).length = 1) := by
  refine ⟨fun ab s => ⟨?_, ?_⟩, fun E => ⟨rfl, rfl⟩⟩
  · simp [abAppend, List.take_left]
  · simp [abAppend]
